import Mathlib

/-!
Shallow embedding of `wnutils/plot/xml.py`: the data-series assembly and
plot-configuration layer of the wnutils plotting module.

Each Python plot function is embedded as a Lean function that returns the
ordered trace of observable effects (collaborator calls and rendering-backend
calls) together with a terminal outcome.  External collaborators (the dataset
reader `wnutils.read.xml`, the symbolic-name resolver `wnutils.utils`, and the
parameter helpers `wnutils.params`) are modelled as an environment of oracle
functions; their invocations are recorded as trace events.  Numeric series are
modelled as lists of rationals.
-/

set_option autoImplicit false

namespace WnutilsPlot

/-- Kinds of runtime failure that abort a plot call. -/
inductive Err where
  /-- Division of a series by a zero scale factor. -/
  | divideByZero
  /-- Dataset-collaborator failure (unreadable dataset, missing name). -/
  | dataAccess (msg : String)
  /-- Indexing an empty aggregation result (`y[0]` on an empty sequence). -/
  | indexError
deriving DecidableEq, Repr

/-- Observable effects of a plot call, in program order: collaborator data
calls, parameter-helper calls, and rendering-backend calls. -/
inductive Event where
  /-- `plp.set_plot_params(...)` (configuration helper, not a data call). -/
  | setParams
  /-- `plp.apply_class_methods(plt, kwargs)` (configuration pass-through). -/
  | applyClassMethods
  /-- `wx.get_properties_in_zones_as_floats(file, names)` data call. -/
  | getProps (file : String) (names : List String)
  /-- `wx.get_mass_fractions_in_zones(file, names)` data call. -/
  | getMassFracs (file : String) (names : List String)
  /-- `wx.get_abundances_vs_nucleon_number_in_zones(file, nucleon, zone_xpath)`. -/
  | getAbunds (file : String) (nucleon : String) (zoneXPath : String)
  /-- `plt.plot(x, y, label=...)`: draw one x-y series with an optional label. -/
  | plotXY (x y : List ℚ) (label : Option String)
  /-- `plt.plot(y, label=...)`: draw one y-only series with an optional label. -/
  | plotY (y : List ℚ) (label : Option String)
  /-- `plt.legend()`: request a legend from the rendering backend. -/
  | legendCall
  /-- `plt.ylabel(s)`. -/
  | setYLabel (s : String)
  /-- `plt.xlabel(s)`. -/
  | setXLabel (s : String)
  /-- `plt.show()`: display the finished chart. -/
  | showFig
  /-- `print(s)`: a diagnostic printed to the console. -/
  | printMsg (s : String)
deriving DecidableEq, Repr

/-- Terminal outcome of a plot call. -/
inductive Outcome where
  /-- The function ran to completion (through `plt.show()`). -/
  | completed
  /-- The function printed a diagnostic and returned early without plotting:
  the source's `ConfigurationError` reporting style for invalid overlay
  metadata (`print(...); return`). -/
  | configAbort (msg : String)
  /-- A runtime error propagated out of the call. -/
  | failed (e : Err)
deriving DecidableEq, Repr

/-- A Python keyword-argument value, as far as the source inspects one. -/
inductive PyVal where
  | str (s : String)
  | bool (b : Bool)
  | num (q : ℚ)
deriving DecidableEq, Repr

/-- The keyword arguments recognized by the plot functions; every absent key
is `none`.  Unrecognized keys are passed through to the rendering backend by
`set_plot_params` / `apply_class_methods` and never branch the core logic, so
they are not represented. -/
structure Kwargs where
  xfactor : Option ℚ
  yfactor : Option ℚ
  use_latex_names : Option PyVal
  ylabel : Option String
  xlabel : Option String
deriving DecidableEq, Repr

/-- All keyword arguments absent. -/
def Kwargs.empty : Kwargs := ⟨none, none, none, none, none⟩

/-- The external collaborators, as oracle functions.  A dataset call either
fails (`Except.error` with a message) or returns a mapping from requested
names to per-zone series, modelled as a total lookup function. -/
structure Env where
  /-- `wx.get_properties_in_zones_as_floats`. -/
  getPropsF : String → List String → Except String (String → List ℚ)
  /-- `wx.get_mass_fractions_in_zones`. -/
  getMassFracsF : String → List String → Except String (String → List ℚ)
  /-- `wx.get_abundances_vs_nucleon_number_in_zones`. -/
  getAbundsF : String → String → String → Except String (List (List ℚ))
  /-- `wu.get_latex_names`: symbolic-name resolver, assumed total. -/
  latexNamesF : List String → (String → String)

/-- Python truthiness of the `legend_labels` argument: `if legend_labels:` is
taken only when the argument is a non-empty list (`None` and `[]` are falsy). -/
def truthyLabels : Option (List String) → Bool
  | some (_ :: _) => true
  | _ => false

/-- The list carried by a `legend_labels` argument (empty when `None`). -/
def labelsList : Option (List String) → List String
  | some ls => ls
  | none => []

/-- The test `kwargs['use_latex_names'] == 'yes'` guarded by
`'use_latex_names' in kwargs`: true exactly when the key is present and its
value is the string `'yes'`. -/
def latexYes : Option PyVal → Bool
  | some (PyVal.str s) => s = "yes"
  | _ => false

/-- Modelled from the spec: the in-place division `x /= float(kwargs[...])`
acts on arrays produced by `wnutils.read.xml`, which is not under `src/`, so
the element type and its zero-division behaviour are not visible in the
source; per the spec (§4.1 UnitScaler), a `None` factor returns the series
unchanged, a zero factor fails with `DivideByZeroError`, and otherwise every
element is divided by the factor. -/
def scale (xs : List ℚ) : Option ℚ → Except Err (List ℚ)
  | none => Except.ok xs
  | some f => if f = 0 then Except.error Err.divideByZero else Except.ok (xs.map (· / f))

/-- The per-file loop of `plot_mass_fraction_vs_property_in_files` (source
lines 56-64): for each file, fetch the property series, scale it by `xfactor`,
fetch the species mass fractions, and draw the series with the label chosen by
`labelOf` at the file's index.  Returns the trace emitted so far and the error
that stopped the loop, if any. -/
def filesLoop (env : Env) (prop species : String) (xf : Option ℚ)
    (labelOf : Nat → Option String) : Nat → List String → List Event × Option Err
  | _, [] => ([], none)
  | i, f :: rest =>
    let e1 := Event.getProps f [prop]
    match env.getPropsF f [prop] with
    | Except.error m => ([e1], some (Err.dataAccess m))
    | Except.ok d =>
      match scale (d prop) xf with
      | Except.error er => ([e1], some er)
      | Except.ok x =>
        let e2 := Event.getMassFracs f [species]
        match env.getMassFracsF f [species] with
        | Except.error m => ([e1, e2], some (Err.dataAccess m))
        | Except.ok dy =>
          let pe := Event.plotXY x (dy species) (labelOf i)
          let r := filesLoop env prop species xf labelOf (i + 1) rest
          (e1 :: e2 :: pe :: r.1, r.2)

/-- The label passed to `plt.plot` for the file at index `i`: when
`legend_labels` is truthy, `legend_labels[i]`; otherwise no `label` keyword
is passed at all. -/
def overlayLabelOf (legend_labels : Option (List String)) : Nat → Option String :=
  if truthyLabels legend_labels then fun i => (labelsList legend_labels).get? i
  else fun _ => none

/-- Embedding of `plot_mass_fraction_vs_property_in_files(files, prop,
species, legend_labels=None, **kwargs)`: set plot parameters; if
`legend_labels` is truthy and its length differs from the number of files,
print a diagnostic and return; otherwise loop over the files fetching,
scaling and drawing one series per file (labelled only when `legend_labels`
is truthy), then apply class methods, set the LaTeX y-label when
`use_latex_names == 'yes'`, request a legend when `legend_labels` is truthy,
and show the figure. -/
def plot_mass_fraction_vs_property_in_files (env : Env) (files : List String)
    (prop species : String) (legend_labels : Option (List String))
    (kw : Kwargs) : List Event × Outcome :=
  let pre := [Event.setParams]
  if truthyLabels legend_labels && decide ((labelsList legend_labels).length ≠ files.length) then
    (pre ++ [Event.printMsg "Invalid legend labels for input files."],
     Outcome.configAbort "Invalid legend labels for input files.")
  else
    let r := filesLoop env prop species kw.xfactor (overlayLabelOf legend_labels) 0 files
    match r.2 with
    | some e => (pre ++ r.1, Outcome.failed e)
    | none =>
      let t2 := pre ++ r.1 ++ [Event.applyClassMethods]
      let t3 := t2 ++
        (if latexYes kw.use_latex_names then
          [Event.setYLabel ("X(" ++ env.latexNamesF [species] species ++ ")")]
         else [])
      let t4 := t3 ++ (if truthyLabels legend_labels then [Event.legendCall] else [])
      (t4 ++ [Event.showFig], Outcome.completed)

/-- Whether the `latex_names` dictionary built by `plot_mass_fractions` /
`plot_mass_fractions_vs_property` is non-empty (`len(latex_names) != 0`):
`wu.get_latex_names` returns one entry per requested species, so the
dictionary is non-empty exactly when `use_latex_names == 'yes'` and the
species list is non-empty. -/
def latexOn (kw : Kwargs) (species : List String) : Bool :=
  latexYes kw.use_latex_names && !species.isEmpty

/-- The label of the series for species `sp` in the single-file multi-species
plots (source lines 121-126 and 195-200): the symbolic name when the
`latex_names` dictionary is non-empty, else the raw identifier. -/
def speciesLabel (env : Env) (kw : Kwargs) (species : List String) (sp : String) : String :=
  if latexOn kw species then env.latexNamesF species sp else sp

/-- The `plt.ylabel` default events (source lines 128-135 and 202-209): with
no explicit `ylabel`, emit `"Mass Fraction"` when the species count differs
from one, else `"X(<label>)"` with the symbolic name when the `latex_names`
dictionary is non-empty and the raw identifier otherwise. -/
def ylabelEvents (env : Env) (kw : Kwargs) (species : List String) : List Event :=
  match kw.ylabel with
  | some _ => []
  | none =>
    if species.length ≠ 1 then [Event.setYLabel "Mass Fraction"]
    else
      if latexOn kw species then
        [Event.setYLabel ("X(" ++ env.latexNamesF species (species.headD "") ++ ")")]
      else
        [Event.setYLabel ("X(" ++ species.headD "" ++ ")")]

/-- Embedding of `plot_mass_fractions(file, species, **kwargs)`: set plot
parameters, fetch all requested species mass fractions in one call, draw one
labelled y-only series per species in list order, apply the ylabel and xlabel
defaults, apply class methods, show. -/
def plot_mass_fractions (env : Env) (file : String) (species : List String)
    (kw : Kwargs) : List Event × Outcome :=
  let pre := [Event.setParams, Event.getMassFracs file species]
  match env.getMassFracsF file species with
  | Except.error m => (pre, Outcome.failed (Err.dataAccess m))
  | Except.ok dy =>
    let plots := species.map fun sp =>
      Event.plotY (dy sp) (some (speciesLabel env kw species sp))
    let t2 := pre ++ plots ++ ylabelEvents env kw species
    let t3 := t2 ++ (match kw.xlabel with
      | none => [Event.setXLabel "step"]
      | some _ => [])
    (t3 ++ [Event.applyClassMethods, Event.showFig], Outcome.completed)

/-- Embedding of `plot_mass_fractions_vs_property(file, prop, species,
**kwargs)`: set plot parameters, fetch the x property and scale it by
`xfactor`, fetch all requested species mass fractions in one call, draw one
labelled x-y series per species in list order, apply the ylabel default,
request a legend when the species count differs from one, apply the xlabel
default (the property name), apply class methods, show. -/
def plot_mass_fractions_vs_property (env : Env) (file : String) (prop : String)
    (species : List String) (kw : Kwargs) : List Event × Outcome :=
  let pre := [Event.setParams, Event.getProps file [prop]]
  match env.getPropsF file [prop] with
  | Except.error m => (pre, Outcome.failed (Err.dataAccess m))
  | Except.ok d =>
    match scale (d prop) kw.xfactor with
    | Except.error er => (pre, Outcome.failed er)
    | Except.ok x =>
      let pre2 := pre ++ [Event.getMassFracs file species]
      match env.getMassFracsF file species with
      | Except.error m => (pre2, Outcome.failed (Err.dataAccess m))
      | Except.ok dy =>
        let plots := species.map fun sp =>
          Event.plotXY x (dy sp) (some (speciesLabel env kw species sp))
        let t2 := pre2 ++ plots ++ ylabelEvents env kw species
        let t3 := t2 ++ (if species.length ≠ 1 then [Event.legendCall] else [])
        let t4 := t3 ++ (match kw.xlabel with
          | none => [Event.setXLabel prop]
          | some _ => [])
        (t4 ++ [Event.applyClassMethods, Event.showFig], Outcome.completed)

/-- Embedding of `plot_property(file, prop, **kwargs)`: set plot parameters,
fetch the property series, scale it by `xfactor`, apply class methods, draw it
unlabelled, show. -/
def plot_property (env : Env) (file : String) (prop : String)
    (kw : Kwargs) : List Event × Outcome :=
  let pre := [Event.setParams, Event.getProps file [prop]]
  match env.getPropsF file [prop] with
  | Except.error m => (pre, Outcome.failed (Err.dataAccess m))
  | Except.ok d =>
    match scale (d prop) kw.xfactor with
    | Except.error er => (pre, Outcome.failed er)
    | Except.ok x =>
      (pre ++ [Event.applyClassMethods, Event.plotY x none, Event.showFig],
       Outcome.completed)

/-- Embedding of `plot_property_vs_property(file, prop1, prop2, **kwargs)`:
set plot parameters, fetch both properties in one batched collaborator call,
scale x by `xfactor` and y by `yfactor`, apply class methods, draw the single
unlabelled series, show. -/
def plot_property_vs_property (env : Env) (file : String) (prop1 prop2 : String)
    (kw : Kwargs) : List Event × Outcome :=
  let pre := [Event.setParams, Event.getProps file [prop1, prop2]]
  match env.getPropsF file [prop1, prop2] with
  | Except.error m => (pre, Outcome.failed (Err.dataAccess m))
  | Except.ok d =>
    match scale (d prop1) kw.xfactor with
    | Except.error er => (pre, Outcome.failed er)
    | Except.ok x =>
      match scale (d prop2) kw.yfactor with
      | Except.error er => (pre, Outcome.failed er)
      | Except.ok y =>
        (pre ++ [Event.applyClassMethods, Event.plotXY x y none, Event.showFig],
         Outcome.completed)

/-- Embedding of `plot_zone_abundances_vs_nucleon_number(file, nucleon,
zone_xpath, **kwargs)`: fetch the nucleon-aggregated abundances, apply class
methods, draw only the first returned sequence (`plt.plot(y[0])`, an
`IndexError` when the result is empty), show. -/
def plot_zone_abundances_vs_nucleon_number (env : Env) (file : String)
    (nucleon : String) (zone_xpath : String) (kw : Kwargs) : List Event × Outcome :=
  let _ := kw
  let pre := [Event.getAbunds file nucleon zone_xpath]
  match env.getAbundsF file nucleon zone_xpath with
  | Except.error m => (pre, Outcome.failed (Err.dataAccess m))
  | Except.ok ys =>
    let t2 := pre ++ [Event.applyClassMethods]
    match ys with
    | [] => (t2, Outcome.failed Err.indexError)
    | y0 :: _ => (t2 ++ [Event.plotY y0 none, Event.showFig], Outcome.completed)

/-! ### Trace observers -/

/-- Whether an event is a dataset-collaborator call for data. -/
def isDataFetch : Event → Bool
  | Event.getProps _ _ => true
  | Event.getMassFracs _ _ => true
  | Event.getAbunds _ _ _ => true
  | _ => false

/-- Whether an event draws a series on the chart (`plt.plot`). -/
def isSeriesDraw : Event → Bool
  | Event.plotXY _ _ _ => true
  | Event.plotY _ _ => true
  | _ => false

/-- Whether an event requests a legend (`plt.legend()`). -/
def isLegend : Event → Bool
  | Event.legendCall => true
  | _ => false

/-- Whether an event displays the finished chart (`plt.show()`). -/
def isShowCall : Event → Bool
  | Event.showFig => true
  | _ => false

/-- Whether an outcome is the configuration abort (diagnostic printed,
early return). -/
def isConfigAbort : Outcome → Bool
  | Outcome.configAbort _ => true
  | _ => false

/-- The labels of the drawn series, in drawing order (`none` when `plt.plot`
was called without a `label` keyword). -/
def seriesLabels (tr : List Event) : List (Option String) :=
  tr.filterMap fun e =>
    match e with
    | Event.plotXY _ _ l => some l
    | Event.plotY _ l => some l
    | _ => none

/-! ### Concrete collaborators for witnesses and counterexamples -/

/-- A collaborator environment where every call succeeds. -/
def env0 : Env :=
  ⟨fun _ _ => Except.ok fun _ => [1, 2],
   fun _ _ => Except.ok fun _ => [3, 4],
   fun _ _ _ => Except.ok [[5, 6], [7, 8]],
   fun _ sp => "L" ++ sp⟩

/-- A collaborator environment whose property reader fails on file `"f2"`
and succeeds elsewhere. -/
def envFail2 : Env :=
  ⟨fun f _ => if f = "f2" then Except.error "bad" else Except.ok fun _ => [1, 2],
   fun _ _ => Except.ok fun _ => [3, 4],
   fun _ _ _ => Except.ok [[5, 6], [7, 8]],
   fun _ sp => "L" ++ sp⟩

/-- Keyword arguments with `use_latex_names='yes'` only. -/
def kwLatexYes : Kwargs := ⟨none, none, some (PyVal.str "yes"), none, none⟩

/-- Keyword arguments with `xfactor=0` only. -/
def kwXZero : Kwargs := ⟨some 0, none, none, none, none⟩

/-! ### Trace computation lemmas -/

theorem seriesLabels_nil : seriesLabels [] = [] := rfl

theorem seriesLabels_append (a b : List Event) :
    seriesLabels (a ++ b) = seriesLabels a ++ seriesLabels b :=
  List.filterMap_append a b _

theorem seriesLabels_cons_getProps (f : String) (ns : List String) (tr : List Event) :
    seriesLabels (Event.getProps f ns :: tr) = seriesLabels tr := rfl

theorem seriesLabels_cons_getMassFracs (f : String) (ns : List String) (tr : List Event) :
    seriesLabels (Event.getMassFracs f ns :: tr) = seriesLabels tr := rfl

theorem seriesLabels_cons_plotXY (x y : List ℚ) (l : Option String) (tr : List Event) :
    seriesLabels (Event.plotXY x y l :: tr) = l :: seriesLabels tr := rfl

/-- The labels of a block of y-only plot events built by mapping over a
species list. -/
theorem seriesLabels_map_plotY (g : String → List ℚ) (h : String → Option String)
    (l : List String) :
    seriesLabels (l.map fun a => Event.plotY (g a) (h a)) = l.map h := by
  induction l with
  | nil => rfl
  | cons a t ih => simpa [seriesLabels, List.filterMap_cons] using ih

/-- The labels of a block of x-y plot events built by mapping over a
species list. -/
theorem seriesLabels_map_plotXY (x : List ℚ) (g : String → List ℚ)
    (h : String → Option String) (l : List String) :
    seriesLabels (l.map fun a => Event.plotXY x (g a) (h a)) = l.map h := by
  induction l with
  | nil => rfl
  | cons a t ih => simpa [seriesLabels, List.filterMap_cons] using ih

/-! ### Loop lemmas -/

/-- Every event emitted by the per-file loop is a data fetch or a series
draw: the loop itself never requests a legend, sets a label, or shows. -/
theorem filesLoop_events (env : Env) (p s : String) (xf : Option ℚ)
    (lf : Nat → Option String) :
    ∀ (i : Nat) (fs : List String) (e : Event),
      e ∈ (filesLoop env p s xf lf i fs).1 →
      isDataFetch e = true ∨ isSeriesDraw e = true := by
  intro i fs
  induction fs generalizing i with
  | nil => intro e he; simp [filesLoop] at he
  | cons f rest ih =>
    intro e he
    simp only [filesLoop] at he
    cases h1 : env.getPropsF f [p] with
    | error m =>
      simp only [h1, List.mem_cons, List.not_mem_nil, or_false] at he
      subst he; left; rfl
    | ok d =>
      simp only [h1] at he
      cases h2 : scale (d p) xf with
      | error er =>
        simp only [h2, List.mem_cons, List.not_mem_nil, or_false] at he
        subst he; left; rfl
      | ok x =>
        simp only [h2] at he
        cases h3 : env.getMassFracsF f [s] with
        | error m =>
          simp only [h3, List.mem_cons, List.not_mem_nil, or_false] at he
          rcases he with h | h <;> (subst h; left; rfl)
        | ok dy =>
          simp only [h3, List.mem_cons] at he
          rcases he with h | h | h | h
          · subst h; left; rfl
          · subst h; left; rfl
          · subst h; right; rfl
          · exact ih (i + 1) e h

/-- The per-file loop never requests a legend and never shows the figure. -/
theorem filesLoop_no_legend_no_show (env : Env) (p s : String) (xf : Option ℚ)
    (lf : Nat → Option String) (i : Nat) (fs : List String) :
    (filesLoop env p s xf lf i fs).1.filter isLegend = [] ∧
      (filesLoop env p s xf lf i fs).1.filter isShowCall = [] := by
  constructor <;>
  · rw [List.filter_eq_nil_iff]
    intro e he
    rcases filesLoop_events env p s xf lf i fs e he with h | h <;>
      cases e <;> simp_all [isDataFetch, isSeriesDraw, isLegend, isShowCall]

/-- When the per-file loop runs to completion, the labels of the drawn
series are exactly the label function sampled at consecutive indices. -/
theorem filesLoop_labels (env : Env) (p s : String) (xf : Option ℚ)
    (lf : Nat → Option String) :
    ∀ (i : Nat) (fs : List String),
      (filesLoop env p s xf lf i fs).2 = none →
      seriesLabels (filesLoop env p s xf lf i fs).1 =
        (List.range fs.length).map (fun j => lf (i + j)) := by
  intro i fs
  induction fs generalizing i with
  | nil => intro _; simp [filesLoop, seriesLabels]
  | cons f rest ih =>
    intro h
    simp only [filesLoop] at h ⊢
    cases h1 : env.getPropsF f [p] with
    | error m => simp only [h1] at h; simp at h
    | ok d =>
      simp only [h1] at h ⊢
      cases h2 : scale (d p) xf with
      | error er => simp only [h2] at h; simp at h
      | ok x =>
        simp only [h2] at h ⊢
        cases h3 : env.getMassFracsF f [s] with
        | error m => simp only [h3] at h; simp at h
        | ok dy =>
          simp only [h3] at h ⊢
          rw [seriesLabels_cons_getProps, seriesLabels_cons_getMassFracs,
            seriesLabels_cons_plotXY, ih (i + 1) h]
          rw [List.length_cons, List.range_succ_eq_map, List.map_cons,
            List.map_map]
          refine congrArg₂ (· :: ·) (congrArg lf (by omega)) ?_
          exact List.map_congr_left fun j _ => congrArg lf (by omega)

/-- Sampling `List.get?` at each index below the length recovers the list
(with each element wrapped in `some`). -/
theorem range_map_get (ls : List String) :
    (List.range ls.length).map (fun j => ls.get? j) = ls.map some := by
  induction ls with
  | nil => simp
  | cons a t ih =>
    simp only [List.length_cons, List.range_succ_eq_map, List.map_cons,
      List.map_map, Function.comp, List.get?_cons_succ, List.get?_cons_zero]
    exact congrArg (some a :: ·) ih

/-- The ylabel-default block never draws a series. -/
theorem seriesLabels_ylabelEvents (env : Env) (kw : Kwargs) (species : List String) :
    seriesLabels (ylabelEvents env kw species) = [] := by
  unfold ylabelEvents
  cases kw.ylabel with
  | some v => rfl
  | none => split_ifs <;> rfl

/-- The labels drawn by `plot_mass_fractions` when the mass-fraction fetch
succeeds: one label per requested species, in list order, each resolved by
`speciesLabel`. -/
theorem plot_mass_fractions_labels (env : Env) (file : String)
    (species : List String) (kw : Kwargs) (d : String → List ℚ)
    (hd : env.getMassFracsF file species = Except.ok d) :
    seriesLabels (plot_mass_fractions env file species kw).1 =
      species.map (fun sp => some (speciesLabel env kw species sp)) := by
  unfold plot_mass_fractions
  simp only [hd]
  simp only [seriesLabels_append, seriesLabels_ylabelEvents,
    seriesLabels_map_plotY]
  cases kw.xlabel <;> simp [seriesLabels]

/-- The per-file loop never emits a legend request. -/
theorem legendCall_not_mem_filesLoop (env : Env) (p s : String) (xf : Option ℚ)
    (lf : Nat → Option String) (i : Nat) (fs : List String) :
    Event.legendCall ∉ (filesLoop env p s xf lf i fs).1 := by
  intro h
  rcases filesLoop_events env p s xf lf i fs _ h with hc | hc <;>
    simp [isDataFetch, isSeriesDraw] at hc

/-- The per-file loop never emits a show call. -/
theorem showFig_not_mem_filesLoop (env : Env) (p s : String) (xf : Option ℚ)
    (lf : Nat → Option String) (i : Nat) (fs : List String) :
    Event.showFig ∉ (filesLoop env p s xf lf i fs).1 := by
  intro h
  rcases filesLoop_events env p s xf lf i fs _ h with hc | hc <;>
    simp [isDataFetch, isSeriesDraw] at hc

/-- Characterization of the overlay plot when the cardinality guard fires:
truthy labels of the wrong length yield the diagnostic print and the
configuration abort, with nothing else in the trace. -/
theorem overlay_guard_true (env : Env) (files : List String) (p s : String)
    (lls : Option (List String)) (kw : Kwargs)
    (h : truthyLabels lls = true)
    (hlen : (labelsList lls).length ≠ files.length) :
    plot_mass_fraction_vs_property_in_files env files p s lls kw =
      ([Event.setParams, Event.printMsg "Invalid legend labels for input files."],
        Outcome.configAbort "Invalid legend labels for input files.") := by
  unfold plot_mass_fraction_vs_property_in_files
  have hguard : (truthyLabels lls &&
      decide ((labelsList lls).length ≠ files.length)) = true := by
    simp [h, hlen]
  simp only [hguard, if_true]
  rfl

/-- Characterization of the overlay plot when the guard passes and the
per-file loop stops with an error: the trace is the parameter setup followed
by the loop's trace, and the outcome is the propagated failure. -/
theorem overlay_err (env : Env) (files : List String) (p s : String)
    (lls : Option (List String)) (kw : Kwargs) (e : Err)
    (hg : truthyLabels lls = false ∨ (labelsList lls).length = files.length)
    (hr : (filesLoop env p s kw.xfactor (overlayLabelOf lls) 0 files).2 = some e) :
    plot_mass_fraction_vs_property_in_files env files p s lls kw =
      (Event.setParams ::
        (filesLoop env p s kw.xfactor (overlayLabelOf lls) 0 files).1,
        Outcome.failed e) := by
  unfold plot_mass_fraction_vs_property_in_files
  have hguard : (truthyLabels lls &&
      decide ((labelsList lls).length ≠ files.length)) = false := by
    rcases hg with h | h <;> simp [h]
  simp only [hguard, Bool.false_eq_true, if_false, hr]
  rfl

/-- Characterization of the overlay plot when the guard passes and the
per-file loop completes: the trace is the parameter setup, the loop's trace,
the class-method application, the optional LaTeX y-label, the optional
legend request, and the show call. -/
theorem overlay_ok (env : Env) (files : List String) (p s : String)
    (lls : Option (List String)) (kw : Kwargs)
    (hg : truthyLabels lls = false ∨ (labelsList lls).length = files.length)
    (hr : (filesLoop env p s kw.xfactor (overlayLabelOf lls) 0 files).2 = none) :
    plot_mass_fraction_vs_property_in_files env files p s lls kw =
      ((([Event.setParams] ++
          (filesLoop env p s kw.xfactor (overlayLabelOf lls) 0 files).1 ++
          [Event.applyClassMethods] ++
          (if latexYes kw.use_latex_names then
            [Event.setYLabel ("X(" ++ env.latexNamesF [s] s ++ ")")]
           else []) ++
          (if truthyLabels lls then [Event.legendCall] else [])) ++
        [Event.showFig]),
        Outcome.completed) := by
  unfold plot_mass_fraction_vs_property_in_files
  have hguard : (truthyLabels lls &&
      decide ((labelsList lls).length ≠ files.length)) = false := by
    rcases hg with h | h <;> simp [h]
  simp only [hguard, Bool.false_eq_true, if_false, hr]

/-! ### Claims -/

/-- C1 counterexample: with `legend_labels = []` (length 0) and one file
(length 1), the lengths differ, yet the call does not abort with the
configuration diagnostic: it completes, makes the dataset call and draws the
series, because the `if legend_labels:` truthiness guard skips the
cardinality check for an empty list. -/
theorem c1_counterexample :
    List.length ([] : List String) = 0 ∧ List.length ["f1"] = 1 ∧
    (plot_mass_fraction_vs_property_in_files env0 ["f1"] "time" "o16"
        (some []) Kwargs.empty).2 = Outcome.completed ∧
    isConfigAbort (plot_mass_fraction_vs_property_in_files env0 ["f1"] "time"
        "o16" (some []) Kwargs.empty).2 = false ∧
    Event.getProps "f1" ["time"] ∈
      (plot_mass_fraction_vs_property_in_files env0 ["f1"] "time" "o16"
        (some []) Kwargs.empty).1 ∧
    Event.plotXY [1, 2] [3, 4] none ∈
      (plot_mass_fraction_vs_property_in_files env0 ["f1"] "time" "o16"
        (some []) Kwargs.empty).1 := by
  decide

/-- C1 (amended): for every multi-file overlay call supplying a NON-EMPTY
`legend_labels` list whose length differs from the number of files, the
operation aborts with the configuration diagnostic before any
dataset-collaborator call and before any series is drawn: the whole trace is
the parameter setup followed by the diagnostic, and the outcome is the
configuration abort. -/
theorem c1_nonempty_label_mismatch_aborts (env : Env) (files : List String)
    (prop species : String) (ls : List String) (kw : Kwargs)
    (hne : ls ≠ []) (hlen : ls.length ≠ files.length) :
    plot_mass_fraction_vs_property_in_files env files prop species (some ls) kw =
      ([Event.setParams, Event.printMsg "Invalid legend labels for input files."],
        Outcome.configAbort "Invalid legend labels for input files.") := by
  obtain ⟨a, t, rfl⟩ : ∃ a t, ls = a :: t := by
    cases ls with
    | nil => exact absurd rfl hne
    | cons a t => exact ⟨a, t, rfl⟩
  exact overlay_guard_true env files prop species (some (a :: t)) kw rfl
    (by simpa [labelsList] using hlen)

/-- C1 witness: a concrete mismatching non-empty label list aborts. -/
theorem c1_witness :
    plot_mass_fraction_vs_property_in_files env0 ["a", "b"] "time" "o16"
        (some ["x"]) Kwargs.empty =
      ([Event.setParams, Event.printMsg "Invalid legend labels for input files."],
        Outcome.configAbort "Invalid legend labels for input files.") :=
  c1_nonempty_label_mismatch_aborts env0 ["a", "b"] "time" "o16" ["x"]
    Kwargs.empty (by decide) (by decide)

/-- C2: the `UnitScaler` behaviour and its effect on a plot call: a `None`
factor returns the series element-wise unchanged; a zero factor fails with
the divide-by-zero arithmetic error; and a plot call whose `xfactor` is zero
(with a successful property fetch) is aborted by that error, with no chart
shown. -/
theorem c2_scale_none_id_zero_aborts (xs : List ℚ) (env : Env)
    (file p1 p2 : String) (kw : Kwargs) (d : String → List ℚ)
    (hx : kw.xfactor = some 0) (hd : env.getPropsF file [p1, p2] = Except.ok d) :
    scale xs none = Except.ok xs ∧
    scale xs (some 0) = Except.error Err.divideByZero ∧
    (plot_property_vs_property env file p1 p2 kw).2 =
      Outcome.failed Err.divideByZero ∧
    (plot_property_vs_property env file p1 p2 kw).1.filter isShowCall = [] := by
  refine ⟨rfl, by simp [scale], ?_, ?_⟩ <;>
  · unfold plot_property_vs_property
    simp [hd, hx, scale, isShowCall, List.filter]

/-- C2 witness: concrete series and a concrete zero-`xfactor` call. -/
theorem c2_witness :
    scale [(1 : ℚ), 2] none = Except.ok [(1 : ℚ), 2] ∧
    scale [(1 : ℚ), 2] (some 0) = Except.error Err.divideByZero ∧
    (plot_property_vs_property env0 "f1" "a" "b" kwXZero).2 =
      Outcome.failed Err.divideByZero ∧
    (plot_property_vs_property env0 "f1" "a" "b" kwXZero).1.filter isShowCall = [] :=
  c2_scale_none_id_zero_aborts [(1 : ℚ), 2] env0 "f1" "a" "b" kwXZero
    (fun _ => [1, 2]) rfl rfl

/-- C3 counterexample: a 3-file overlay with no `legend_labels` completes,
draws 3 series, and requests NO legend — refuting the claim that a legend is
requested whenever more than one series is present. -/
theorem c3_counterexample :
    (plot_mass_fraction_vs_property_in_files env0 ["f1", "f2", "f3"] "time"
        "o16" none Kwargs.empty).2 = Outcome.completed ∧
    ((plot_mass_fraction_vs_property_in_files env0 ["f1", "f2", "f3"] "time"
        "o16" none Kwargs.empty).1.filter isSeriesDraw).length = 3 ∧
    (plot_mass_fraction_vs_property_in_files env0 ["f1", "f2", "f3"] "time"
        "o16" none Kwargs.empty).1.filter isLegend = [] := by
  decide

/-- C3 (amended): legend emission does not follow the series count in the
multi-file overlay: with `legend_labels` absent no legend is ever requested
(however many files); with a truthy `legend_labels` list a completing call
requests one. In the single-file species-vs-property plot, a completing call
requests a legend exactly when the species count differs from one. -/
theorem c3_legend_emission (env : Env) (files : List String) (p s : String)
    (kw : Kwargs) (ls : List String) (file prop : String)
    (species : List String) :
    (Event.legendCall ∉
      (plot_mass_fraction_vs_property_in_files env files p s none kw).1) ∧
    (truthyLabels (some ls) = true →
      (plot_mass_fraction_vs_property_in_files env files p s (some ls) kw).2 =
        Outcome.completed →
      Event.legendCall ∈
        (plot_mass_fraction_vs_property_in_files env files p s (some ls) kw).1) ∧
    (species.length ≠ 1 →
      (plot_mass_fractions_vs_property env file prop species kw).2 =
        Outcome.completed →
      Event.legendCall ∈
        (plot_mass_fractions_vs_property env file prop species kw).1) ∧
    (species.length = 1 →
      Event.legendCall ∉
        (plot_mass_fractions_vs_property env file prop species kw).1) := by
  refine ⟨?_, ?_, ?_, ?_⟩
  · cases hr : (filesLoop env p s kw.xfactor (overlayLabelOf none) 0 files).2 with
    | some e =>
      rw [overlay_err env files p s none kw e (Or.inl rfl) hr]
      simp [legendCall_not_mem_filesLoop]
    | none =>
      rw [overlay_ok env files p s none kw (Or.inl rfl) hr]
      cases hl : latexYes kw.use_latex_names <;>
        simp [hl, truthyLabels, legendCall_not_mem_filesLoop]
  · intro htr hc
    by_cases hlen : (labelsList (some ls)).length = files.length
    · cases hr : (filesLoop env p s kw.xfactor (overlayLabelOf (some ls)) 0 files).2 with
      | some e =>
        rw [overlay_err env files p s (some ls) kw e (Or.inr hlen) hr] at hc
        simp at hc
      | none =>
        rw [overlay_ok env files p s (some ls) kw (Or.inr hlen) hr]
        simp [htr]
    · rw [overlay_guard_true env files p s (some ls) kw htr hlen] at hc
      simp at hc
  · intro hne hc
    unfold plot_mass_fractions_vs_property at hc ⊢
    cases h1 : env.getPropsF file [prop] with
    | error m => simp [h1] at hc
    | ok d =>
      simp only [h1] at hc ⊢
      cases h2 : scale (d prop) kw.xfactor with
      | error er => simp [h2] at hc
      | ok x =>
        simp only [h2] at hc ⊢
        cases h3 : env.getMassFracsF file species with
        | error m => simp [h3] at hc
        | ok dy =>
          simp only [h3] at hc ⊢
          simp [hne, List.mem_append]
  · intro h1len
    unfold plot_mass_fractions_vs_property
    cases h1 : env.getPropsF file [prop] with
    | error m => simp [h1]
    | ok d =>
      simp only [h1]
      cases h2 : scale (d prop) kw.xfactor with
      | error er => simp [h2]
      | ok x =>
        simp only [h2]
        cases h3 : env.getMassFracsF file species with
        | error m => simp [h3]
        | ok dy =>
          simp only [h3]
          simp [h1len, List.mem_append, ylabelEvents, List.mem_map]
          constructor
          · split
            · simp
            · split_ifs <;> simp
          · split <;> simp

/-- C3 witness: concrete instances for all four legend-emission facts. -/
theorem c3_witness :
    (Event.legendCall ∉
      (plot_mass_fraction_vs_property_in_files env0 ["f1", "f2"] "time" "o16"
        none Kwargs.empty).1) ∧
    Event.legendCall ∈
      (plot_mass_fraction_vs_property_in_files env0 ["f1", "f2"] "time" "o16"
        (some ["u", "v"]) Kwargs.empty).1 ∧
    Event.legendCall ∈
      (plot_mass_fractions_vs_property env0 "f1" "time" ["c12", "o16"]
        Kwargs.empty).1 ∧
    Event.legendCall ∉
      (plot_mass_fractions_vs_property env0 "f1" "time" ["c12"]
        Kwargs.empty).1 := by
  obtain ⟨h1, h2, h3, h4⟩ := c3_legend_emission env0 ["f1", "f2"] "time" "o16"
    Kwargs.empty ["u", "v"] "f1" "time" ["c12", "o16"]
  obtain ⟨_, _, _, h4'⟩ := c3_legend_emission env0 ["f1", "f2"] "time" "o16"
    Kwargs.empty ["u", "v"] "f1" "time" ["c12"]
  exact ⟨h1, h2 (by decide) (by decide), h3 (by decide) (by decide),
    h4' (by decide)⟩

/-- Keyword arguments with `use_latex_names=True` (the Python boolean). -/
def kwBoolTrue : Kwargs := ⟨none, none, some (PyVal.bool true), none, none⟩

/-- C4 counterexample: in the multi-file overlay with no legend label and
symbolic naming requested (`use_latex_names='yes'`), the drawn series carries
NO label (`none`): neither the symbolic-lookup result `"Lo16"` nor the raw
identifier `"o16"` is used, refuting the claimed override/symbolic/raw
precedence for this operation. -/
theorem c4_counterexample :
    latexYes kwLatexYes.use_latex_names = true ∧
    env0.latexNamesF ["o16"] "o16" = "Lo16" ∧
    (plot_mass_fraction_vs_property_in_files env0 ["f1"] "time" "o16" none
        kwLatexYes).2 = Outcome.completed ∧
    seriesLabels (plot_mass_fraction_vs_property_in_files env0 ["f1"] "time"
        "o16" none kwLatexYes).1 = [none] ∧
    ((seriesLabels (plot_mass_fraction_vs_property_in_files env0 ["f1"]
        "time" "o16" none kwLatexYes).1 == [some "Lo16"]) = false) ∧
    ((seriesLabels (plot_mass_fraction_vs_property_in_files env0 ["f1"]
        "time" "o16" none kwLatexYes).1 == [some "o16"]) = false) := by
  decide

/-- C4 (amended): label resolution is not uniform across the operations. In
the single-file multi-species plots (which accept no override) the label is
the symbolic-lookup result when symbolic naming is active and the raw
identifier otherwise; in the multi-file overlay a caller-supplied legend
label is used verbatim (series `i` gets `legend_labels[i]`), but with no
override the series get no label at all — the symbolic/raw fallback never
applies to overlay series labels. -/
theorem c4_label_resolution (env : Env) (file : String) (species : List String)
    (kw : Kwargs) (d : String → List ℚ) (files : List String) (p s : String)
    (ls : List String) :
    (env.getMassFracsF file species = Except.ok d →
      seriesLabels (plot_mass_fractions env file species kw).1 =
        species.map (fun sp =>
          some (if latexOn kw species then env.latexNamesF species sp else sp))) ∧
    (truthyLabels (some ls) = true → ls.length = files.length →
      (plot_mass_fraction_vs_property_in_files env files p s (some ls) kw).2 =
        Outcome.completed →
      seriesLabels (plot_mass_fraction_vs_property_in_files env files p s
        (some ls) kw).1 = ls.map some) ∧
    ((plot_mass_fraction_vs_property_in_files env files p s none kw).2 =
        Outcome.completed →
      seriesLabels (plot_mass_fraction_vs_property_in_files env files p s
        none kw).1 = List.replicate files.length none) := by
  refine ⟨?_, ?_, ?_⟩
  · intro hd
    simpa [speciesLabel] using plot_mass_fractions_labels env file species kw d hd
  · intro htr hlen hc
    cases hr : (filesLoop env p s kw.xfactor (overlayLabelOf (some ls)) 0 files).2 with
    | some e =>
      rw [overlay_err env files p s (some ls) kw e
        (Or.inr (by simpa [labelsList] using hlen)) hr] at hc
      simp at hc
    | none =>
      rw [overlay_ok env files p s (some ls) kw
        (Or.inr (by simpa [labelsList] using hlen)) hr]
      simp only [seriesLabels_append]
      rw [filesLoop_labels env p s kw.xfactor _ 0 files hr]
      simp only [overlayLabelOf, htr, if_true, labelsList, Nat.zero_add]
      rw [← hlen, range_map_get]
      cases hl : latexYes kw.use_latex_names <;>
        simp [hl, truthyLabels, seriesLabels]
  · intro hc
    cases hr : (filesLoop env p s kw.xfactor (overlayLabelOf none) 0 files).2 with
    | some e =>
      rw [overlay_err env files p s none kw e (Or.inl rfl) hr] at hc
      simp at hc
    | none =>
      rw [overlay_ok env files p s none kw (Or.inl rfl) hr]
      simp only [seriesLabels_append]
      rw [filesLoop_labels env p s kw.xfactor _ 0 files hr]
      simp only [overlayLabelOf, truthyLabels, Bool.false_eq_true, if_false]
      cases hl : latexYes kw.use_latex_names <;>
        simp [hl, truthyLabels, seriesLabels, List.map_const']

/-- C4 witness: concrete instances of all three label-resolution facts. -/
theorem c4_witness :
    seriesLabels (plot_mass_fractions env0 "f" ["c12"] Kwargs.empty).1 =
      ["c12"].map (fun sp =>
        some (if latexOn Kwargs.empty ["c12"] then env0.latexNamesF ["c12"] sp
          else sp)) ∧
    seriesLabels (plot_mass_fraction_vs_property_in_files env0 ["f1"] "time"
      "o16" (some ["a"]) Kwargs.empty).1 = ["a"].map some ∧
    seriesLabels (plot_mass_fraction_vs_property_in_files env0 ["f1"] "time"
      "o16" none Kwargs.empty).1 = List.replicate (List.length ["f1"]) none := by
  obtain ⟨h1, h2, h3⟩ := c4_label_resolution env0 "f" ["c12"] Kwargs.empty
    (fun _ => [3, 4]) ["f1"] "time" "o16" ["a"]
  exact ⟨h1 rfl, h2 rfl rfl (by decide), h3 (by decide)⟩

/-- C5: for the single-file multi-species plots with no explicit `ylabel`
and symbolic naming off, a completing call sets the y-axis label to
`"X(<species>)"` when exactly one species is requested and to
`"Mass Fraction"` when more than one species is requested — in both
`plot_mass_fractions` and `plot_mass_fractions_vs_property`. -/
theorem c5_ylabel_defaults (env : Env) (file s0 prop : String)
    (species : List String) (kw : Kwargs)
    (hyl : kw.ylabel = none) (hlx : latexYes kw.use_latex_names = false)
    (hmany : 1 < species.length) :
    ((plot_mass_fractions env file [s0] kw).2 = Outcome.completed →
      Event.setYLabel ("X(" ++ s0 ++ ")") ∈
        (plot_mass_fractions env file [s0] kw).1) ∧
    ((plot_mass_fractions env file species kw).2 = Outcome.completed →
      Event.setYLabel "Mass Fraction" ∈
        (plot_mass_fractions env file species kw).1) ∧
    ((plot_mass_fractions_vs_property env file prop [s0] kw).2 =
        Outcome.completed →
      Event.setYLabel ("X(" ++ s0 ++ ")") ∈
        (plot_mass_fractions_vs_property env file prop [s0] kw).1) ∧
    ((plot_mass_fractions_vs_property env file prop species kw).2 =
        Outcome.completed →
      Event.setYLabel "Mass Fraction" ∈
        (plot_mass_fractions_vs_property env file prop species kw).1) := by
  have hne : species.length ≠ 1 := by omega
  refine ⟨?_, ?_, ?_, ?_⟩
  · intro hc
    unfold plot_mass_fractions at hc ⊢
    cases h1 : env.getMassFracsF file [s0] with
    | error m => simp [h1] at hc
    | ok dy =>
      simp only [h1]
      simp [ylabelEvents, hyl, latexOn, hlx, List.mem_append]
  · intro hc
    unfold plot_mass_fractions at hc ⊢
    cases h1 : env.getMassFracsF file species with
    | error m => simp [h1] at hc
    | ok dy =>
      simp only [h1]
      simp [ylabelEvents, hyl, hne, List.mem_append]
  · intro hc
    unfold plot_mass_fractions_vs_property at hc ⊢
    cases h1 : env.getPropsF file [prop] with
    | error m => simp [h1] at hc
    | ok d =>
      simp only [h1] at hc ⊢
      cases h2 : scale (d prop) kw.xfactor with
      | error er => simp [h2] at hc
      | ok x =>
        simp only [h2] at hc ⊢
        cases h3 : env.getMassFracsF file [s0] with
        | error m => simp [h3] at hc
        | ok dy =>
          simp only [h3]
          simp [ylabelEvents, hyl, latexOn, hlx, List.mem_append]
  · intro hc
    unfold plot_mass_fractions_vs_property at hc ⊢
    cases h1 : env.getPropsF file [prop] with
    | error m => simp [h1] at hc
    | ok d =>
      simp only [h1] at hc ⊢
      cases h2 : scale (d prop) kw.xfactor with
      | error er => simp [h2] at hc
      | ok x =>
        simp only [h2] at hc ⊢
        cases h3 : env.getMassFracsF file species with
        | error m => simp [h3] at hc
        | ok dy =>
          simp only [h3]
          simp [ylabelEvents, hyl, hne, List.mem_append]

/-- C5 witness: concrete single-species and two-species calls. -/
theorem c5_witness :
    Event.setYLabel ("X(" ++ "c12" ++ ")") ∈
      (plot_mass_fractions env0 "f" ["c12"] Kwargs.empty).1 ∧
    Event.setYLabel "Mass Fraction" ∈
      (plot_mass_fractions env0 "f" ["c12", "o16"] Kwargs.empty).1 ∧
    Event.setYLabel ("X(" ++ "c12" ++ ")") ∈
      (plot_mass_fractions_vs_property env0 "f" "time" ["c12"] Kwargs.empty).1 ∧
    Event.setYLabel "Mass Fraction" ∈
      (plot_mass_fractions_vs_property env0 "f" "time" ["c12", "o16"]
        Kwargs.empty).1 := by
  obtain ⟨h1, h2, h3, h4⟩ := c5_ylabel_defaults env0 "f" "c12" "time"
    ["c12", "o16"] Kwargs.empty rfl rfl (by decide)
  exact ⟨h1 (by decide), h2 (by decide), h3 (by decide), h4 (by decide)⟩

/-- C6 counterexample: with a collaborator that fails on file `"f2"`, the
2-file overlay fails — but a rendering call was already made before the
failure: the series of file `"f1"` has been drawn, refuting "aborted before
any rendering call is made". -/
theorem c6_counterexample :
    (plot_mass_fraction_vs_property_in_files envFail2 ["f1", "f2"] "time"
        "o16" none Kwargs.empty).2 = Outcome.failed (Err.dataAccess "bad") ∧
    Event.plotXY [1, 2] [3, 4] none ∈
      (plot_mass_fraction_vs_property_in_files envFail2 ["f1", "f2"] "time"
        "o16" none Kwargs.empty).1 ∧
    ((plot_mass_fraction_vs_property_in_files envFail2 ["f1", "f2"] "time"
        "o16" none Kwargs.empty).1.filter isSeriesDraw).length = 1 := by
  decide

/-- C6 (amended): a dataset-collaborator failure on any file aborts the
overlay before the chart is displayed and before any legend request: the
outcome is the propagated failure and the trace contains no show call and no
legend call — but the series of the files preceding the failure have already
been issued to the rendering backend inside the loop. -/
theorem c6_failure_aborts_before_show (env : Env) (files : List String)
    (p s : String) (lls : Option (List String)) (kw : Kwargs) (e : Err)
    (hf : (plot_mass_fraction_vs_property_in_files env files p s lls kw).2 =
      Outcome.failed e) :
    Event.showFig ∉
      (plot_mass_fraction_vs_property_in_files env files p s lls kw).1 ∧
    Event.legendCall ∉
      (plot_mass_fraction_vs_property_in_files env files p s lls kw).1 := by
  by_cases hg : truthyLabels lls = true ∧ (labelsList lls).length ≠ files.length
  · rw [overlay_guard_true env files p s lls kw hg.1 hg.2] at hf
    simp at hf
  · have hg' : truthyLabels lls = false ∨ (labelsList lls).length = files.length := by
      by_cases htr : truthyLabels lls = true
      · right; by_contra hb; exact hg ⟨htr, hb⟩
      · left; simpa using htr
    cases hr : (filesLoop env p s kw.xfactor (overlayLabelOf lls) 0 files).2 with
    | none =>
      rw [overlay_ok env files p s lls kw hg' hr] at hf
      simp at hf
    | some e2 =>
      rw [overlay_err env files p s lls kw e2 hg' hr]
      constructor
      · simp [showFig_not_mem_filesLoop]
      · simp [legendCall_not_mem_filesLoop]

/-- C6 witness: the concrete failing 2-file overlay shows no chart and
requests no legend. -/
theorem c6_witness :
    Event.showFig ∉
      (plot_mass_fraction_vs_property_in_files envFail2 ["f1", "f2"] "time"
        "o16" none Kwargs.empty).1 ∧
    Event.legendCall ∉
      (plot_mass_fraction_vs_property_in_files envFail2 ["f1", "f2"] "time"
        "o16" none Kwargs.empty).1 :=
  c6_failure_aborts_before_show envFail2 ["f1", "f2"] "time" "o16" none
    Kwargs.empty (Err.dataAccess "bad") (by decide)

/-- C7: when the aggregation collaborator returns a non-empty
sequence-of-sequences, only its first element is plotted and the rest are
ignored: the entire trace and outcome are independent of the remaining
elements, which never appear in any event. -/
theorem c7_first_element_only (env : Env) (file nucleon zx : String)
    (kw : Kwargs) (y0 : List ℚ) (rest : List (List ℚ))
    (h : env.getAbundsF file nucleon zx = Except.ok (y0 :: rest)) :
    plot_zone_abundances_vs_nucleon_number env file nucleon zx kw =
      ([Event.getAbunds file nucleon zx, Event.applyClassMethods,
        Event.plotY y0 none, Event.showFig], Outcome.completed) := by
  unfold plot_zone_abundances_vs_nucleon_number
  simp [h]

/-- C7 witness: a concrete two-bin aggregation result plots only the first
bin. -/
theorem c7_witness :
    plot_zone_abundances_vs_nucleon_number env0 "f1" "z" "zx" Kwargs.empty =
      ([Event.getAbunds "f1" "z" "zx", Event.applyClassMethods,
        Event.plotY [5, 6] none, Event.showFig], Outcome.completed) :=
  c7_first_element_only env0 "f1" "z" "zx" Kwargs.empty [5, 6] [[7, 8]] rfl

/-- C8: `plot_property_vs_property` issues exactly one dataset-collaborator
data call, carrying both property names in one list — never one call per
property name. -/
theorem c8_batched_property_fetch (env : Env) (file p1 p2 : String)
    (kw : Kwargs) :
    (plot_property_vs_property env file p1 p2 kw).1.filter isDataFetch =
      [Event.getProps file [p1, p2]] := by
  unfold plot_property_vs_property
  cases h1 : env.getPropsF file [p1, p2] with
  | error m => simp only [h1]; rfl
  | ok d =>
    simp only [h1]
    cases h2 : scale (d p1) kw.xfactor with
    | error er => simp only [h2]; rfl
    | ok x =>
      simp only [h2]
      cases h3 : scale (d p2) kw.yfactor with
      | error er => simp only [h3]; rfl
      | ok y => simp only [h3]; rfl

/-- C9: symbolic (LaTeX) naming is activated exactly when the
`use_latex_names` value is the string `'yes'`: the test equals the decidable
comparison with `some (str "yes")`; the Python boolean `True` and the string
`'Yes'` do not activate it; and with any non-`'yes'` value the raw species
identifiers are used as labels. -/
theorem c9_latex_only_exact_yes (ov : Option PyVal) (env : Env) (file : String)
    (species : List String) (kw : Kwargs) (d : String → List ℚ)
    (hlx : latexYes kw.use_latex_names = false)
    (hd : env.getMassFracsF file species = Except.ok d) :
    latexYes ov = decide (ov = some (PyVal.str "yes")) ∧
    latexYes (some (PyVal.bool true)) = false ∧
    latexYes (some (PyVal.str "Yes")) = false ∧
    seriesLabels (plot_mass_fractions env file species kw).1 =
      species.map some := by
  refine ⟨?_, rfl, by decide, ?_⟩
  · cases ov with
    | none => simp [latexYes]
    | some v =>
      cases v with
      | str t => simp [latexYes]
      | bool b => simp [latexYes]
      | num q => simp [latexYes]
  · rw [plot_mass_fractions_labels env file species kw d hd]
    simp [speciesLabel, latexOn, hlx]

/-- C9 witness: `use_latex_names=True` (boolean) leaves symbolic naming off
and the raw identifiers are used. -/
theorem c9_witness :
    latexYes (some (PyVal.bool true)) =
      decide (some (PyVal.bool true) = some (PyVal.str "yes")) ∧
    latexYes (some (PyVal.bool true)) = false ∧
    latexYes (some (PyVal.str "Yes")) = false ∧
    seriesLabels (plot_mass_fractions env0 "f" ["c12", "o16"] kwBoolTrue).1 =
      ["c12", "o16"].map some :=
  c9_latex_only_exact_yes (some (PyVal.bool true)) env0 "f" ["c12", "o16"]
    kwBoolTrue (fun _ => [3, 4]) rfl rfl

/-- C10: an empty `legend_labels` list is falsy, so the cardinality check is
bypassed: the call behaves exactly as if `legend_labels` were `None`, never
takes the configuration abort, and requests no legend. -/
theorem c10_empty_labels_bypass (env : Env) (files : List String)
    (p s : String) (kw : Kwargs) :
    plot_mass_fraction_vs_property_in_files env files p s (some []) kw =
      plot_mass_fraction_vs_property_in_files env files p s none kw ∧
    isConfigAbort (plot_mass_fraction_vs_property_in_files env files p s
      (some []) kw).2 = false ∧
    Event.legendCall ∉
      (plot_mass_fraction_vs_property_in_files env files p s (some []) kw).1 := by
  have heq : plot_mass_fraction_vs_property_in_files env files p s (some []) kw =
      plot_mass_fraction_vs_property_in_files env files p s none kw := rfl
  refine ⟨heq, ?_, ?_⟩
  · rw [heq]
    cases hr : (filesLoop env p s kw.xfactor (overlayLabelOf none) 0 files).2 with
    | some e =>
      rw [overlay_err env files p s none kw e (Or.inl rfl) hr]
      rfl
    | none =>
      rw [overlay_ok env files p s none kw (Or.inl rfl) hr]
      rfl
  · rw [heq]
    cases hr : (filesLoop env p s kw.xfactor (overlayLabelOf none) 0 files).2 with
    | some e =>
      rw [overlay_err env files p s none kw e (Or.inl rfl) hr]
      simp [legendCall_not_mem_filesLoop]
    | none =>
      rw [overlay_ok env files p s none kw (Or.inl rfl) hr]
      cases hl : latexYes kw.use_latex_names <;>
        simp [hl, truthyLabels, legendCall_not_mem_filesLoop]

/-- C10 witness: a concrete one-file call with an empty label list. -/
theorem c10_witness :
    plot_mass_fraction_vs_property_in_files env0 ["f1"] "time" "o16"
        (some []) Kwargs.empty =
      plot_mass_fraction_vs_property_in_files env0 ["f1"] "time" "o16" none
        Kwargs.empty ∧
    isConfigAbort (plot_mass_fraction_vs_property_in_files env0 ["f1"] "time"
      "o16" (some []) Kwargs.empty).2 = false ∧
    Event.legendCall ∉
      (plot_mass_fraction_vs_property_in_files env0 ["f1"] "time" "o16"
        (some []) Kwargs.empty).1 :=
  c10_empty_labels_bypass env0 ["f1"] "time" "o16" Kwargs.empty

end WnutilsPlot
